import Mathlib

/-!
Shallow embedding of the NIP-47 request-handling engine
(`handle_sign_message_request.go`: `HandleSignMessageEvent` and
`HandleMultiPayKeysendEvent`).

The handlers are modelled as pure functions producing an ordered *trace*
of observable events (published responses, payment-ledger writes, backend
calls).  External collaborators that are not part of the source under
verification — the request decoder (`decodeNip47Request` / `json.Unmarshal`),
the permission policy (`svc.checkPermission`), the Lightning backend
(`svc.lnClient`) and the persistence layer (`svc.db`) — are supplied as an
oracle environment (`Env`), with their response shapes modelled from the
spec where the source does not show them.

Concurrency: each batch element's goroutine body is sequential; the
batch handler launches one goroutine per element and `wg.Wait()`s for all
of them before returning.  The batch trace is modelled as the canonical
concatenation of the per-element traces; every property proved below is
either per-element (invariant under interleaving of distinct elements'
traces, since each event belongs to exactly one element) or a count /
membership property over the whole trace (likewise interleaving invariant).
-/

/-- Error object of a NIP-47 response (`Nip47Error`: code and message). -/
structure Nip47Error where
  code : String
  message : String
deriving DecidableEq, Repr

/-- Result payloads that the two handlers produce
(`Nip47SignMessageResponse` with message and signature, and
`Nip47PayResponse` carrying a preimage). -/
inductive Nip47Result where
  | signMessage (message : String) (signature : String)
  | pay (preimage : String)
deriving DecidableEq, Repr

/-- Outbound response (`Nip47Response`): echoed method name in
`result_type`, and either a structured result or a structured error. -/
structure Nip47Response where
  resultType : String
  result : Option Nip47Result := none
  error : Option Nip47Error := none
deriving DecidableEq, Repr

/-- Inbound logical request (`Nip47Request`): method name and the raw,
still-opaque parameter payload (a JSON string in the source). -/
structure Nip47Request where
  method : String
  params : String
deriving DecidableEq, Repr

/-- One inbound transport message (`RequestEvent`); only its
transport-native identifier `NostrId` is consumed by these handlers. -/
structure RequestEvent where
  nostrId : String
deriving DecidableEq, Repr

/-- Registered caller (`App`); only its identifier is consumed here. -/
structure App where
  id : Nat
deriving DecidableEq, Repr

/-- Decoded parameters of a sign-message request
(`Nip47SignMessageParams`). -/
structure Nip47SignMessageParams where
  message : String
deriving DecidableEq, Repr

/-- One element of a multi-pay-keysend batch
(`Nip47MultiPayKeysendElement`): recipient pubkey, amount in millisats,
optional caller-supplied id, optional preimage, TLV records.  TLV records
are opaque to the handler (passed through to the backend) and modelled as
key/value pairs. -/
structure Nip47MultiPayKeysendElement where
  pubkey : String
  amount : Nat
  id : String
  preimage : String
  tlvRecords : List (Nat × String)
deriving DecidableEq, Repr

/-- Decoded parameters of a multi-pay-keysend request
(`Nip47MultiPayKeysendParams`): the list of keysend elements. -/
structure Nip47MultiPayKeysendParams where
  keysends : List Nip47MultiPayKeysendElement
deriving DecidableEq, Repr

/-- Payment ledger record (`Payment`), as written by the handlers: owning
app, originating request event, amount (the source stores
`uint(keysendInfo.Amount / 1000)`), and the optional preimage, populated
only on success. -/
structure Payment where
  appId : Nat
  requestEventNostrId : String
  amount : Nat
  preimage : Option String := none
deriving DecidableEq, Repr

/-- Modelled from the spec (§4.2, §6): reasons the Permission Policy can
deny a request — capability not granted, per-operation budget exceeded,
app disabled/expired.  `svc.checkPermission` itself is not among the
source files under verification. -/
inductive DenialReason where
  | notGranted
  | budgetExceeded
  | disabledExpired
deriving DecidableEq, Repr

/-- Modelled from the spec (§6): the stable `INTERNAL` error-code string
(`NIP_47_ERROR_INTERNAL`; the constant's definition is outside the source
under verification). -/
def NIP_47_ERROR_INTERNAL : String := "INTERNAL"

/-- Modelled from the spec (§6, §4.1): the bad-request/decode-failure
error-code string surfaced on malformed params. -/
def NIP_47_ERROR_BAD_REQUEST : String := "BAD_REQUEST"

/-- Modelled from the spec (§4.2, §6): the error-code string for each
denial reason; all are permission-denied-class codes, distinct from
`INTERNAL`. -/
def denialCode : DenialReason → String
  | .notGranted => "NOT_AUTHORIZED"
  | .budgetExceeded => "QUOTA_EXCEEDED"
  | .disabledExpired => "EXPIRED"

/-- Oracle environment for the external collaborators: decoder outcomes
per raw payload, permission-policy verdicts, backend call outcomes, and
persistence-insert outcomes.  Each is deterministic within one run, which
suffices for the properties proved here. -/
structure Env where
  decodeSignMessage : String → Except String Nip47SignMessageParams
  decodeMultiPayKeysend : String → Except String Nip47MultiPayKeysendParams
  permission : String → Nat → Option (DenialReason × String)
  signMessage : String → Except String String
  sendKeysend : Nat → String → String → List (Nat × String) → Except String String
  createPaymentError : Payment → Option String

/-- Modelled from the spec (§4.2, §4.6): `svc.checkPermission` returns
`nil` when allowed, otherwise an error response carrying the originating
method name and a permission-denied-class code with a reason message. -/
def checkPermission (env : Env) (method : String) (amount : Nat) :
    Option Nip47Response :=
  match env.permission method amount with
  | none => none
  | some (r, msg) =>
      some { resultType := method,
             error := some { code := denialCode r, message := msg } }

/-- Modelled from the spec (§4.1, §4.6): `svc.decodeNip47Request` returns
`nil` on success (filling the typed params) and otherwise an error
response, carrying the method name and a bad-request/decode-failure
error. -/
def decodeErrorResponse (method : String) (msg : String) : Nip47Response :=
  { resultType := method,
    error := some { code := NIP_47_ERROR_BAD_REQUEST, message := msg } }

deriving instance DecidableEq for Except

/-- Observable events of a handler run, in program order: a published
response with its tags, a payment-ledger insert attempt
(`svc.db.Create`, with its success flag), a payment-ledger update
(`svc.db.Save`), and the two backend calls with their outcomes. -/
inductive Ev where
  | publish (resp : Nip47Response) (tags : List (List String))
  | dbCreate (p : Payment) (ok : Bool)
  | dbSave (p : Payment)
  | backendSignMessage (message : String) (result : Except String String)
  | backendSendKeysend (amount : Nat) (pubkey : String)
      (result : Except String String)
deriving DecidableEq, Repr

/-- Embedding of `HandleSignMessageEvent`: decode (error response and stop
on failure), permission check with amount 0 (error response and stop on
denial), backend `SignMessage` (INTERNAL error response with the backend's
message on failure), success response echoing message and signature.  All
responses carry empty tags. -/
def HandleSignMessageEvent (env : Env) (nip47Request : Nip47Request)
    (_requestEvent : RequestEvent) (_app : App) : List Ev :=
  match env.decodeSignMessage nip47Request.params with
  | .error e => [.publish (decodeErrorResponse nip47Request.method e) []]
  | .ok signParams =>
    match checkPermission env nip47Request.method 0 with
    | some resp => [.publish resp []]
    | none =>
      match env.signMessage signParams.message with
      | .error err =>
          [.backendSignMessage signParams.message (.error err),
           .publish { resultType := nip47Request.method,
                      error := some { code := NIP_47_ERROR_INTERNAL,
                                      message := err } } []]
      | .ok signature =>
          [.backendSignMessage signParams.message (.ok signature),
           .publish { resultType := nip47Request.method,
                      result := some (.signMessage signParams.message
                        signature) } []]

/-- Correlation tag value for a batch element: the caller-supplied `Id`,
or the recipient `Pubkey` when the id is empty
(`keysendDTagValue`). -/
def keysendDTagValue (keysendInfo : Nip47MultiPayKeysendElement) : String :=
  if keysendInfo.id = "" then keysendInfo.pubkey else keysendInfo.id

/-- Embedding of the goroutine body run for one batch element inside
`HandleMultiPayKeysendEvent`.  Faithful to the source, including that the
permission-denial branch publishes the error response but does NOT return:
processing falls through to create the Payment and call the backend.  On a
failed `svc.db.Create` the goroutine logs and returns; on backend failure
it publishes an INTERNAL error (no ledger update); on success it sets the
preimage, saves the record and publishes the success response.  Every
response is tagged with the element's `d` tag. -/
def processKeysendElement (env : Env) (request : Nip47Request)
    (requestEvent : RequestEvent) (app : App)
    (keysendInfo : Nip47MultiPayKeysendElement) : List Ev :=
  let dTag : List String := ["d", keysendDTagValue keysendInfo]
  let permEvents : List Ev :=
    match checkPermission env request.method keysendInfo.amount with
    | some resp => [.publish resp [dTag]]
    | none => []
  let payment : Payment :=
    { appId := app.id, requestEventNostrId := requestEvent.nostrId,
      amount := keysendInfo.amount / 1000 }
  permEvents ++
    match env.createPaymentError payment with
    | some _ => [.dbCreate payment false]
    | none =>
      .dbCreate payment true ::
      match env.sendKeysend keysendInfo.amount keysendInfo.pubkey
          keysendInfo.preimage keysendInfo.tlvRecords with
      | .error err =>
          [.backendSendKeysend keysendInfo.amount keysendInfo.pubkey
             (.error err),
           .publish { resultType := request.method,
                      error := some { code := NIP_47_ERROR_INTERNAL,
                                      message := err } } [dTag]]
      | .ok preimage =>
          [.backendSendKeysend keysendInfo.amount keysendInfo.pubkey
             (.ok preimage),
           .dbSave { payment with preimage := some preimage },
           .publish { resultType := request.method,
                      result := some (.pay preimage) } [dTag]]

/-- Embedding of `HandleMultiPayKeysendEvent`: on a failed
`json.Unmarshal` of the params it logs and returns the error — publishing
nothing.  Otherwise it runs one goroutine per keysend element and
`wg.Wait()`s for all of them, returning `nil`; the trace is the
concatenation of the per-element traces (see the header note on
interleaving). -/
def HandleMultiPayKeysendEvent (env : Env) (request : Nip47Request)
    (requestEvent : RequestEvent) (app : App) :
    List Ev × Option String :=
  match env.decodeMultiPayKeysend request.params with
  | .error e => ([], some e)
  | .ok multiPayParams =>
      ((multiPayParams.keysends.map
          (processKeysendElement env request requestEvent app)).flatten, none)

/-- Published responses (with tags) projected from a trace. -/
def publishes : List Ev → List (Nip47Response × List (List String))
  | [] => []
  | .publish r t :: rest => (r, t) :: publishes rest
  | _ :: rest => publishes rest

/-- Payment-ledger write events (successful inserts and updates)
projected from a trace: the records as written. -/
def ledgerWrites : List Ev → List Payment
  | [] => []
  | .dbCreate p true :: rest => p :: ledgerWrites rest
  | .dbSave p :: rest => p :: ledgerWrites rest
  | _ :: rest => ledgerWrites rest

/-- Test whether an event is any payment-ledger access (insert attempt or
update). -/
def isDbWrite : Ev → Bool
  | .dbCreate _ _ => true
  | .dbSave _ => true
  | _ => false

/-- Test whether an event is a backend `SendKeysend` call. -/
def isSendKeysend : Ev → Bool
  | .backendSendKeysend _ _ _ => true
  | _ => false

/-- Test whether a published response is an INTERNAL error carrying
exactly the given message. -/
def isInternalError (msg : String) (r : Nip47Response) : Bool :=
  r.error = some { code := NIP_47_ERROR_INTERNAL, message := msg }

/-- Test whether an event is a payment-ledger update (`svc.db.Save`). -/
def isDbSave : Ev → Bool
  | .dbSave _ => true
  | _ => false

/-- Concrete multi-pay-keysend request used in the concrete scenarios. -/
def reqKeysend : Nip47Request :=
  { method := "multi_pay_keysend", params := "params-json" }

/-- Concrete sign-message request used in the concrete scenarios. -/
def reqSign : Nip47Request :=
  { method := "sign_message", params := "params-json" }

/-- Concrete request event used in the concrete scenarios. -/
def reqEventC : RequestEvent := { nostrId := "evt1" }

/-- Concrete app used in the concrete scenarios. -/
def appC : App := { id := 7 }

/-- Concrete batch element: caller-supplied id `id1`, 1500 msat to
`pk1`. -/
def elemC : Nip47MultiPayKeysendElement :=
  { pubkey := "pk1", amount := 1500, id := "id1", preimage := "",
    tlvRecords := [] }

/-- Concrete batch element with no caller-supplied id (tag falls back to
the recipient pubkey): 2000 msat to `pk2`. -/
def elemC2 : Nip47MultiPayKeysendElement :=
  { pubkey := "pk2", amount := 2000, id := "", preimage := "",
    tlvRecords := [] }

/-- The pending payment record the handler builds for `elemC` (1500 msat
stored as `1500 / 1000 = 1`). -/
def paymentC : Payment :=
  { appId := 7, requestEventNostrId := "evt1", amount := 1 }

/-- Happy-path oracle environment: both decoders succeed (the batch holds
`elemC` and `elemC2`), every permission check allows, the backend signs
and pays successfully, payment inserts succeed. -/
def baseEnv : Env :=
  { decodeSignMessage := fun _ => .ok { message := "hello" },
    decodeMultiPayKeysend := fun _ => .ok { keysends := [elemC, elemC2] },
    permission := fun _ _ => none,
    signMessage := fun m => .ok ("sig:" ++ m),
    sendKeysend := fun _ _ _ _ => .ok "pre1",
    createPaymentError := fun _ => none }

/-- Environment in which the permission policy denies every request (the
batch decodes to the single element `elemC`); everything else
succeeds. -/
def envDeny1 : Env :=
  { baseEnv with
    decodeMultiPayKeysend := fun _ => .ok { keysends := [elemC] },
    permission := fun _ _ => some (.budgetExceeded, "insufficient budget") }

/-- Environment in which the multi-pay-keysend params fail to decode. -/
def envDecodeFail : Env :=
  { baseEnv with
    decodeMultiPayKeysend := fun _ => .error "missing required field" }

/-- Environment in which the backend `SendKeysend` call fails (the batch
decodes to the single element `elemC`); everything else succeeds. -/
def envSendFail : Env :=
  { baseEnv with
    decodeMultiPayKeysend := fun _ => .ok { keysends := [elemC] },
    sendKeysend := fun _ _ _ _ => .error "no route" }

/-- Environment in which the backend `SignMessage` call fails. -/
def envSignFail : Env :=
  { baseEnv with signMessage := fun _ => .error "node offline" }

/-!
Helper lemmas shared by several claim proofs.
-/

/-- Projection of published responses distributes over trace
concatenation. -/
theorem publishes_append (l₁ l₂ : List Ev) :
    publishes (l₁ ++ l₂) = publishes l₁ ++ publishes l₂ := by
  induction l₁ with
  | nil => rfl
  | cons a l ih => cases a <;> simp [publishes, ih]

/-- CLAIM C1 (code divergence, concrete run): with a one-element batch
whose element the permission policy denies, the handler publishes the
denial error for the element but does NOT stop: it also creates the
Payment record, issues the backend `SendKeysend` call, and publishes a
second response for the same element — two responses in total where the
claim requires exactly one and no Payment/backend activity. -/
theorem C1_denied_element_still_processed :
    checkPermission envDeny1 reqKeysend.method elemC.amount ≠ none ∧
    (publishes (processKeysendElement envDeny1 reqKeysend reqEventC appC
      elemC)).length = 2 ∧
    Ev.dbCreate paymentC true
      ∈ processKeysendElement envDeny1 reqKeysend reqEventC appC elemC ∧
    (processKeysendElement envDeny1 reqKeysend reqEventC appC
      elemC).countP isSendKeysend = 1 := by
  decide

/-- CLAIM C2 (code divergence, concrete run): a multi-pay-keysend request
whose params fail to decode makes the handler return the decode error
without publishing anything — zero responses, where the claim requires
exactly one error response. -/
theorem C2_malformed_batch_publishes_nothing :
    HandleMultiPayKeysendEvent envDecodeFail reqKeysend reqEventC appC
      = ([], some "missing required field") := by
  decide

/-- CLAIM C5 (counterexample): for the element with input amount 1500
(millisats), the Payment record is created with amount `1500 / 1000 = 1`,
not the input amount 1500 — the stored amount is the input divided by
1000. -/
theorem C5_amount_stored_divided :
    Ev.dbCreate paymentC true
      ∈ processKeysendElement baseEnv reqKeysend reqEventC appC elemC ∧
    paymentC.amount = 1 ∧ elemC.amount = 1500 ∧ paymentC.amount ≠ elemC.amount := by
  decide

/-- CLAIM C6 (counterexample): when the backend `SendKeysend` call fails
after the pending Payment was created, the handler performs no
payment-ledger update at all: the only ledger write of the run is the
pending insert, and no `Save` event exists — the record is left untouched
in its pending state rather than finalized. -/
theorem C6_failed_payment_left_pending :
    Ev.backendSendKeysend 1500 "pk1" (.error "no route")
      ∈ processKeysendElement envSendFail reqKeysend reqEventC appC elemC ∧
    (processKeysendElement envSendFail reqKeysend reqEventC appC
      elemC).filter isDbSave = [] ∧
    ledgerWrites (processKeysendElement envSendFail reqKeysend reqEventC
      appC elemC) = [paymentC] := by
  decide

/-- CLAIM C4 (counterexample): for a well-formed batch with exactly one
element, when that element is permission-denied the handler publishes two
responses, not one — the response count does not equal the element
count. -/
theorem C4_denied_element_two_responses :
    envDeny1.decodeMultiPayKeysend reqKeysend.params
      = .ok { keysends := [elemC] } ∧
    (publishes
      (HandleMultiPayKeysendEvent envDeny1 reqKeysend reqEventC appC).1).length
      = 2 ∧ (2 : Nat) ≠ 1 := by
  decide

/-- Denial-class error codes are distinct from the INTERNAL code. -/
theorem denialCode_ne_internal (r : DenialReason) :
    denialCode r ≠ NIP_47_ERROR_INTERNAL := by
  cases r <;> decide

/-- Test helper: a permission-denial error object never equals an
INTERNAL error object, whatever the messages. -/
theorem denial_error_ne_internal (r : DenialReason) (msg e0 : String) :
    ({ code := denialCode r, message := msg } : Nip47Error)
      ≠ { code := NIP_47_ERROR_INTERNAL, message := e0 } := by
  cases r <;> simp [denialCode, NIP_47_ERROR_INTERNAL]

/-- CLAIM C10: handling a sign-message request performs no
payment-ledger access of any kind — the trace contains no insert attempt
and no update, for every environment and input. -/
theorem C10_sign_message_no_ledger_writes (env : Env) (req : Nip47Request)
    (re : RequestEvent) (app : App) :
    (HandleSignMessageEvent env req re app).filter isDbWrite = [] ∧
    ledgerWrites (HandleSignMessageEvent env req re app) = [] := by
  rcases h1 : env.decodeSignMessage req.params with e | sp
  · simp [HandleSignMessageEvent, h1, isDbWrite, ledgerWrites]
  · rcases h2 : checkPermission env req.method 0 with _ | resp
    · rcases h3 : env.signMessage sp.message with err | sig <;>
        simp [HandleSignMessageEvent, h1, h2, h3, isDbWrite, ledgerWrites]
    · simp [HandleSignMessageEvent, h1, h2, isDbWrite, ledgerWrites]

/-- CLAIM C8: for every valid (decodable) single sign-message request,
exactly one response is published; it carries the request's method name
as its `result_type` — on permission denial, backend error and success
alike — and it carries no correlation tag. -/
theorem C8_single_request_one_response (env : Env) (req : Nip47Request)
    (re : RequestEvent) (app : App) (sp : Nip47SignMessageParams)
    (hdec : env.decodeSignMessage req.params = .ok sp) :
    ∃ r, publishes (HandleSignMessageEvent env req re app) = [(r, [])] ∧
      r.resultType = req.method := by
  rcases hp : env.permission req.method 0 with _ | rm
  · rcases h3 : env.signMessage sp.message with err | sig
    · refine ⟨{ resultType := req.method,
                error := some { code := NIP_47_ERROR_INTERNAL,
                                message := err } }, ?_, rfl⟩
      simp [HandleSignMessageEvent, hdec, checkPermission, hp, h3, publishes]
    · refine ⟨{ resultType := req.method,
                result := some (.signMessage sp.message sig) }, ?_, rfl⟩
      simp [HandleSignMessageEvent, hdec, checkPermission, hp, h3, publishes]
  · rcases rm with ⟨r, msg⟩
    refine ⟨{ resultType := req.method,
              error := some { code := denialCode r, message := msg } }, ?_, rfl⟩
    simp [HandleSignMessageEvent, hdec, checkPermission, hp, publishes]

/-- Witness for C8: the happy-path environment and the concrete
sign-message request publish exactly one untagged response echoing the
method. -/
theorem C8_single_request_one_response_witness :
    ∃ r, publishes (HandleSignMessageEvent baseEnv reqSign reqEventC appC)
        = [(r, [])] ∧ r.resultType = reqSign.method :=
  C8_single_request_one_response baseEnv reqSign reqEventC appC
    { message := "hello" } rfl

/-- CLAIM C9: for every well-formed batch request, every event of every
element's processing — in particular each element's published responses —
is contained in the trace the batch handler has produced by the time it
returns (`wg.Wait()` joins all element goroutines before the handler
returns). -/
theorem C9_all_element_events_in_batch_trace (env : Env)
    (req : Nip47Request) (re : RequestEvent) (app : App)
    (ps : Nip47MultiPayKeysendParams)
    (hdec : env.decodeMultiPayKeysend req.params = .ok ps) :
    ∀ e ∈ ps.keysends, ∀ ev ∈ processKeysendElement env req re app e,
      ev ∈ (HandleMultiPayKeysendEvent env req re app).1 := by
  intro e he ev hev
  simp only [HandleMultiPayKeysendEvent, hdec]
  exact List.mem_flatten.mpr ⟨_, List.mem_map_of_mem _ he, hev⟩

/-- Witness for C9: in the happy-path two-element batch, the first
element's Payment-insert event is in the batch handler's trace. -/
theorem C9_all_element_events_in_batch_trace_witness :
    Ev.dbCreate paymentC true
      ∈ (HandleMultiPayKeysendEvent baseEnv reqKeysend reqEventC appC).1 :=
  C9_all_element_events_in_batch_trace baseEnv reqKeysend reqEventC appC
    { keysends := [elemC, elemC2] } rfl elemC (by decide)
    (Ev.dbCreate paymentC true) (by decide)

/-- Processing one allowed batch element (permission granted, Payment
insert succeeds) publishes exactly one response, tagged with the
element's `d` tag. -/
theorem publishes_element_allowed (env : Env) (req : Nip47Request)
    (re : RequestEvent) (app : App) (e : Nip47MultiPayKeysendElement)
    (hperm : env.permission req.method e.amount = none)
    (hdb : env.createPaymentError
      { appId := app.id, requestEventNostrId := re.nostrId,
        amount := e.amount / 1000, preimage := none } = none) :
    ∃ r, publishes (processKeysendElement env req re app e)
      = [(r, [["d", keysendDTagValue e]])] := by
  rcases hsend : env.sendKeysend e.amount e.pubkey e.preimage
      e.tlvRecords with err | pre
  · exact ⟨{ resultType := req.method,
             error := some { code := NIP_47_ERROR_INTERNAL,
                             message := err } },
      by simp [processKeysendElement, checkPermission, hperm, hdb, hsend,
        publishes]⟩
  · exact ⟨{ resultType := req.method, result := some (.pay pre) },
      by simp [processKeysendElement, checkPermission, hperm, hdb, hsend,
        publishes]⟩

/-- Joining the traces of a list of allowed elements yields one response
per element, with the elements' `d` tags in order. -/
theorem publishes_flatten_allowed (env : Env) (req : Nip47Request)
    (re : RequestEvent) (app : App)
    (l : List Nip47MultiPayKeysendElement)
    (hperm : ∀ e ∈ l, env.permission req.method e.amount = none)
    (hdb : ∀ p, env.createPaymentError p = none) :
    (publishes ((l.map (processKeysendElement env req re app)).flatten)).map
        Prod.snd
      = l.map (fun e => [["d", keysendDTagValue e]]) := by
  induction l with
  | nil => rfl
  | cons e l ih =>
    obtain ⟨r, hr⟩ := publishes_element_allowed env req re app e
      (hperm e (by simp)) (hdb _)
    simp [publishes_append, hr, ih (fun x hx => hperm x (by simp [hx]))]

/-- CLAIM C4 (amended): for every well-formed batch request in which no
element is permission-denied and every Payment insert succeeds, exactly N
responses are published — one per element, in some order — each tagged
with the element's caller-supplied id, or its recipient pubkey when the
id is empty.  (Unamended, the claim fails: a permission-denied element
produces two responses, see the counterexample.) -/
theorem C4_batch_response_count_and_tags (env : Env) (req : Nip47Request)
    (re : RequestEvent) (app : App) (ps : Nip47MultiPayKeysendParams)
    (hdec : env.decodeMultiPayKeysend req.params = .ok ps)
    (hperm : ∀ e ∈ ps.keysends, env.permission req.method e.amount = none)
    (hdb : ∀ p, env.createPaymentError p = none) :
    (publishes (HandleMultiPayKeysendEvent env req re app).1).length
        = ps.keysends.length ∧
    (publishes (HandleMultiPayKeysendEvent env req re app).1).map Prod.snd
        = ps.keysends.map (fun e => [["d", keysendDTagValue e]]) := by
  have h := publishes_flatten_allowed env req re app ps.keysends hperm hdb
  simp only [HandleMultiPayKeysendEvent, hdec]
  refine ⟨?_, h⟩
  have hlen := congrArg List.length h
  simpa using hlen

/-- Witness for C4 (amended): the happy-path two-element batch publishes
two responses, tagged `id1` (caller-supplied id) and `pk2` (pubkey
fallback). -/
theorem C4_batch_response_count_and_tags_witness :
    (publishes (HandleMultiPayKeysendEvent baseEnv reqKeysend reqEventC
        appC).1).length = ([elemC, elemC2] : List _).length ∧
    (publishes (HandleMultiPayKeysendEvent baseEnv reqKeysend reqEventC
        appC).1).map Prod.snd
      = [elemC, elemC2].map (fun e => [["d", keysendDTagValue e]]) :=
  C4_batch_response_count_and_tags baseEnv reqKeysend reqEventC appC
    { keysends := [elemC, elemC2] } rfl (by decide) (fun _ => rfl)

/-- CLAIM C5 (amended): every payment-ledger record written while
processing a batch element carries the element's input amount divided by
1000 (millisat input stored in the next-larger unit, by integer
division) — not the input amount itself, which the counterexample
refutes. -/
theorem C5_payment_amount_msat_to_sat (env : Env) (req : Nip47Request)
    (re : RequestEvent) (app : App) (e : Nip47MultiPayKeysendElement)
    (p : Payment)
    (hp : p ∈ ledgerWrites (processKeysendElement env req re app e)) :
    p.amount = e.amount / 1000 := by
  rcases h1 : checkPermission env req.method e.amount with _ | resp <;>
    rcases h2 : env.createPaymentError
        { appId := app.id, requestEventNostrId := re.nostrId,
          amount := e.amount / 1000, preimage := none } with _ | errdb <;>
    rcases h3 : env.sendKeysend e.amount e.pubkey e.preimage
        e.tlvRecords with err | pre <;>
    simp [processKeysendElement, h1, h2, h3, ledgerWrites] at hp <;>
    first
      | (rcases hp with hp | hp <;> simp [hp])
      | simp [hp]

/-- Witness for C5 (amended): the concrete pending record for the
1500-msat element stores amount `1500 / 1000`. -/
theorem C5_payment_amount_msat_to_sat_witness :
    paymentC.amount = elemC.amount / 1000 :=
  C5_payment_amount_msat_to_sat baseEnv reqKeysend reqEventC appC elemC
    paymentC (by decide)

/-- CLAIM C6 (amended): when the backend `SendKeysend` call for an
element fails, the guarding Payment record receives no further ledger
write: the element's trace contains no `Save` event, and every record it
inserted is in the pending (preimage-absent) state.  The record is thus
left pending rather than explicitly finalized — the counterexample
refutes the claim's "finalized after the backend call returns". -/
theorem C6_no_ledger_update_after_backend_failure (env : Env)
    (req : Nip47Request) (re : RequestEvent) (app : App)
    (e : Nip47MultiPayKeysendElement) (err : String)
    (hsend : env.sendKeysend e.amount e.pubkey e.preimage e.tlvRecords
      = .error err) :
    (processKeysendElement env req re app e).filter isDbSave = [] ∧
    ∀ p b, Ev.dbCreate p b ∈ processKeysendElement env req re app e →
      p.preimage = none := by
  rcases h1 : checkPermission env req.method e.amount with _ | resp <;>
    rcases h2 : env.createPaymentError
        { appId := app.id, requestEventNostrId := re.nostrId,
          amount := e.amount / 1000, preimage := none } with _ | errdb <;>
    refine ⟨by simp [processKeysendElement, h1, h2, hsend, isDbSave],
      fun p b hp => ?_⟩ <;>
    simp [processKeysendElement, h1, h2, hsend] at hp <;>
    rw [hp.1]

/-- Witness for C6 (amended): the concrete failed-backend run performs
no ledger update and its inserted record is pending. -/
theorem C6_no_ledger_update_after_backend_failure_witness :
    (processKeysendElement envSendFail reqKeysend reqEventC appC
      elemC).filter isDbSave = [] ∧ paymentC.preimage = none :=
  ⟨(C6_no_ledger_update_after_backend_failure envSendFail reqKeysend
      reqEventC appC elemC "no route" rfl).1,
   (C6_no_ledger_update_after_backend_failure envSendFail reqKeysend
      reqEventC appC elemC "no route" rfl).2 paymentC true (by decide)⟩

/-- CLAIM C7: for every request unit whose backend call fails — a whole
sign-message request, or one batch element — exactly one response is
published for that unit whose error code is `INTERNAL` and whose message
is the backend error's text verbatim (a preceding permission-denial
response for the same element never carries the INTERNAL code). -/
theorem C7_internal_error_verbatim (env : Env) (req : Nip47Request)
    (re : RequestEvent) (app : App) :
    (∀ m err,
        Ev.backendSignMessage m (.error err)
          ∈ HandleSignMessageEvent env req re app →
        ((publishes (HandleSignMessageEvent env req re app)).filter
          (fun pr => isInternalError err pr.1)).length = 1) ∧
    (∀ e a pk err,
        Ev.backendSendKeysend a pk (.error err)
          ∈ processKeysendElement env req re app e →
        ((publishes (processKeysendElement env req re app e)).filter
          (fun pr => isInternalError err pr.1)).length = 1) := by
  constructor
  · intro m err hmem
    rcases h1 : env.decodeSignMessage req.params with de | sp
    · simp [HandleSignMessageEvent, h1] at hmem
    · rcases h2 : env.permission req.method 0 with _ | rm
      · rcases h3 : env.signMessage sp.message with e0 | sig
        · simp [HandleSignMessageEvent, h1, checkPermission, h2, h3]
            at hmem ⊢
          simp [publishes, isInternalError, hmem.2]
        · simp [HandleSignMessageEvent, h1, checkPermission, h2, h3] at hmem
      · rcases rm with ⟨r, msg⟩
        simp [HandleSignMessageEvent, h1, checkPermission, h2] at hmem
  · intro e a pk err hmem
    rcases h2 : env.createPaymentError
        { appId := app.id, requestEventNostrId := re.nostrId,
          amount := e.amount / 1000, preimage := none } with _ | errdb
    · rcases h3 : env.sendKeysend e.amount e.pubkey e.preimage
          e.tlvRecords with e0 | pre
      · rcases h1 : env.permission req.method e.amount with _ | rm
        · simp [processKeysendElement, checkPermission, h1, h2, h3]
            at hmem ⊢
          simp [publishes, isInternalError, hmem.2.2]
        · rcases rm with ⟨r, msg⟩
          simp [processKeysendElement, checkPermission, h1, h2, h3]
            at hmem ⊢
          simp [publishes, isInternalError, hmem.2.2,
            denial_error_ne_internal r msg e0]
      · rcases h1 : env.permission req.method e.amount with _ | rm
        · simp [processKeysendElement, checkPermission, h1, h2, h3] at hmem
        · rcases rm with ⟨r, msg⟩
          simp [processKeysendElement, checkPermission, h1, h2, h3] at hmem
    · rcases h1 : env.permission req.method e.amount with _ | rm
      · simp [processKeysendElement, checkPermission, h1, h2] at hmem
      · rcases rm with ⟨r, msg⟩
        simp [processKeysendElement, checkPermission, h1, h2] at hmem

/-- Witness for C7: the concrete failed sign-message run and failed
keysend-element run each publish exactly one INTERNAL response carrying
the backend's error text verbatim. -/
theorem C7_internal_error_verbatim_witness :
    ((publishes (HandleSignMessageEvent envSignFail reqSign reqEventC
        appC)).filter
      (fun pr => isInternalError "node offline" pr.1)).length = 1 ∧
    ((publishes (processKeysendElement envSendFail reqKeysend reqEventC
        appC elemC)).filter
      (fun pr => isInternalError "no route" pr.1)).length = 1 :=
  ⟨(C7_internal_error_verbatim envSignFail reqSign reqEventC appC).1
      "hello" "node offline" (by decide),
   (C7_internal_error_verbatim envSendFail reqKeysend reqEventC appC).2
      elemC 1500 "pk1" "no route" (by decide)⟩

/-- CLAIM C3: ordering of ledger writes around the backend call, for
every batch element and environment.  (a) Every backend `SendKeysend`
call is preceded in the element's trace by a successful insert of a
pending Payment (preimage absent).  (b) Every ledger update writes a
record with a populated preimage, and is preceded by a backend call that
returned exactly that preimage successfully — so a Payment with a
populated preimage and no successful backend call is never written. -/
theorem C3_payment_pending_before_backend_call (env : Env)
    (req : Nip47Request) (re : RequestEvent) (app : App)
    (e : Nip47MultiPayKeysendElement) :
    (∀ a pk r,
        Ev.backendSendKeysend a pk r ∈ processKeysendElement env req re app e →
        ∃ p, p.preimage = none ∧
          List.Sublist [Ev.dbCreate p true, Ev.backendSendKeysend a pk r]
            (processKeysendElement env req re app e)) ∧
    (∀ p, Ev.dbSave p ∈ processKeysendElement env req re app e →
        ∃ pre, p.preimage = some pre ∧
          List.Sublist
            [Ev.backendSendKeysend e.amount e.pubkey (.ok pre), Ev.dbSave p]
            (processKeysendElement env req re app e)) := by
  rcases h1 : checkPermission env req.method e.amount with _ | resp <;>
    rcases h2 : env.createPaymentError
        { appId := app.id, requestEventNostrId := re.nostrId,
          amount := e.amount / 1000, preimage := none } with _ | errdb <;>
    rcases h3 : env.sendKeysend e.amount e.pubkey e.preimage
        e.tlvRecords with err | pre <;>
    simp only [processKeysendElement, h1, h2, h3, List.nil_append,
      List.singleton_append] <;>
    constructor <;>
    intro a
  case none.none.error.left =>
    intro pk r hmem
    simp at hmem
    obtain ⟨rfl, rfl, rfl⟩ := hmem
    exact ⟨⟨app.id, re.nostrId, e.amount / 1000, none⟩, rfl,
      (List.nil_sublist _).cons₂ _ |>.cons₂ _⟩
  case none.none.error.right =>
    intro hmem
    simp at hmem
  case none.none.ok.left =>
    intro pk r hmem
    simp at hmem
    obtain ⟨rfl, rfl, rfl⟩ := hmem
    exact ⟨⟨app.id, re.nostrId, e.amount / 1000, none⟩, rfl,
      ((List.nil_sublist _).cons _ |>.cons₂ _).cons₂ _⟩
  case none.none.ok.right =>
    intro hmem
    simp at hmem
    subst hmem
    exact ⟨pre, rfl, ((List.nil_sublist _).cons₂ _ |>.cons₂ _).cons _⟩
  case none.some.error.left =>
    intro pk r hmem
    simp at hmem
  case none.some.error.right =>
    intro hmem
    simp at hmem
  case none.some.ok.left =>
    intro pk r hmem
    simp at hmem
  case none.some.ok.right =>
    intro hmem
    simp at hmem
  case some.none.error.left =>
    intro pk r hmem
    simp at hmem
    obtain ⟨rfl, rfl, rfl⟩ := hmem
    exact ⟨⟨app.id, re.nostrId, e.amount / 1000, none⟩, rfl,
      ((List.nil_sublist _).cons₂ _ |>.cons₂ _).cons _⟩
  case some.none.error.right =>
    intro hmem
    simp at hmem
  case some.none.ok.left =>
    intro pk r hmem
    simp at hmem
    obtain ⟨rfl, rfl, rfl⟩ := hmem
    exact ⟨⟨app.id, re.nostrId, e.amount / 1000, none⟩, rfl,
      (((List.nil_sublist _).cons _ |>.cons₂ _).cons₂ _).cons _⟩
  case some.none.ok.right =>
    intro hmem
    simp at hmem
    subst hmem
    exact ⟨pre, rfl,
      (((List.nil_sublist _).cons₂ _ |>.cons₂ _).cons _).cons _⟩
  case some.some.error.left =>
    intro pk r hmem
    simp at hmem
  case some.some.error.right =>
    intro hmem
    simp at hmem
  case some.some.ok.left =>
    intro pk r hmem
    simp at hmem
  case some.some.ok.right =>
    intro hmem
    simp at hmem

/-- Witness for C3: in the concrete happy-path run, the backend call for
the first element is preceded by the insert of a pending record. -/
theorem C3_payment_pending_before_backend_call_witness :
    ∃ p, p.preimage = none ∧
      List.Sublist
        [Ev.dbCreate p true, Ev.backendSendKeysend 1500 "pk1" (.ok "pre1")]
        (processKeysendElement baseEnv reqKeysend reqEventC appC elemC) :=
  (C3_payment_pending_before_backend_call baseEnv reqKeysend reqEventC
    appC elemC).1 1500 "pk1" (.ok "pre1") (by decide)
